import Mathlib

/-!
Verification of `src/diesel/src/connection/transaction_manager.rs`
(the `AnsiTransactionManager` implementation of the `TransactionManager`
trait), as a shallow embedding in Lean 4.

The Rust code keeps one piece of mutable state, `transaction_depth:
Cell<i32>`, and issues SQL statements through `SimpleConnection::
batch_execute`.  We embed this as explicit state passing: the manager
state is the signed depth counter together with the trace of SQL
statements issued so far, and the backend is a response function
mapping (history of issued statements, current statement) to a
`QueryResult<()>`.  Signed 32-bit arithmetic is modelled on `Int`; the
one place where the machine width matters is `get_transaction_depth`,
which reinterprets the `i32` as `u32`, embedded as `% 2^32`.
-/

namespace Diesel

/-- Embeds `crate::result::DatabaseErrorKind` (the variants the
transaction manager distinguishes, plus representatives of the rest). -/
inductive DatabaseErrorKind where
  | UniqueViolation
  | ForeignKeyViolation
  | UnableToSendCommand
  | SerializationFailure
  | ReadOnlyTransaction
  | Unknown
deriving DecidableEq, Repr

/-- Embeds `crate::result::Error` (the variants the transaction manager
distinguishes, plus representatives of the rest); the boxed
`DatabaseErrorInformation` payload is modelled as a `String`. -/
inductive Error where
  | DatabaseError (kind : DatabaseErrorKind) (info : String)
  | NotFound
  | AlreadyInTransaction
  | RollbackTransaction
deriving DecidableEq, Repr

/-- Embeds `crate::result::QueryResult<T> = Result<T, Error>`. -/
abbrev QueryResult (α : Type) := Except Error α

deriving instance DecidableEq for Except

/-- The statement channel: the backend's response to a
`batch_execute(sql)` call, as a function of the statements already
issued on this connection (the history) and the statement being
issued.  This embeds the `SimpleConnection` a manager method receives. -/
def Conn : Type := List String → String → QueryResult Unit

/-- Embeds `AnsiTransactionManager { transaction_depth: Cell<i32> }`,
extended with the trace `issued` of SQL statements sent through the
statement channel so far (oldest first), so that theorems can speak
about which statements an operation issues. -/
structure AnsiTransactionManager where
  transaction_depth : Int
  issued : List String
deriving DecidableEq, Repr

/-- Embeds a `conn.batch_execute(sql)` call: the backend's response,
and the statement appended to the trace. -/
def batch_execute (conn : Conn) (st : AnsiTransactionManager) (sql : String) :
    QueryResult Unit × AnsiTransactionManager :=
  (conn st.issued sql, { st with issued := st.issued ++ [sql] })

/-- Embeds `AnsiTransactionManager::change_transaction_depth`: the
depth cell is mutated only when `query.is_ok()`, and `query` is
returned unchanged. -/
def change_transaction_depth (st : AnsiTransactionManager) (amount : Int)
    (query : QueryResult Unit) : QueryResult Unit × AnsiTransactionManager :=
  match query with
  | .ok _ => (query, { st with transaction_depth := st.transaction_depth + amount })
  | .error _ => (query, st)

/-- Embeds `AnsiTransactionManager::begin_transaction_sql`. -/
def begin_transaction_sql (conn : Conn) (st : AnsiTransactionManager)
    (sql : String) : QueryResult Unit × AnsiTransactionManager :=
  if st.transaction_depth = 0 then
    let r := batch_execute conn st sql
    change_transaction_depth r.2 1 r.1
  else
    (.error .AlreadyInTransaction, st)

/-- Embeds `<AnsiTransactionManager as TransactionManager>::begin_transaction`. -/
def begin_transaction (conn : Conn) (st : AnsiTransactionManager) :
    QueryResult Unit × AnsiTransactionManager :=
  let transaction_depth := st.transaction_depth
  let r :=
    if transaction_depth = 0 then
      batch_execute conn st "BEGIN"
    else
      batch_execute conn st ("SAVEPOINT diesel_savepoint_" ++ toString transaction_depth)
  change_transaction_depth r.2 1 r.1

/-- Embeds `<AnsiTransactionManager as TransactionManager>::rollback_transaction`. -/
def rollback_transaction (conn : Conn) (st : AnsiTransactionManager) :
    QueryResult Unit × AnsiTransactionManager :=
  let transaction_depth := st.transaction_depth
  let r :=
    if transaction_depth = 1 then
      batch_execute conn st "ROLLBACK"
    else
      batch_execute conn st
        ("ROLLBACK TO SAVEPOINT diesel_savepoint_" ++ toString (transaction_depth - 1))
  change_transaction_depth r.2 (-1) r.1

/-- Embeds `<AnsiTransactionManager as TransactionManager>::commit_transaction`.
In the `transaction_depth <= 1` branch, a `COMMIT` failure with kind
`SerializationFailure` or `ReadOnlyTransaction` triggers
`self.change_transaction_depth(-1, conn.batch_execute("ROLLBACK"))?`
followed by returning the original error `e`; the `?` is embedded by
the final `match`. -/
def commit_transaction (conn : Conn) (st : AnsiTransactionManager) :
    QueryResult Unit × AnsiTransactionManager :=
  let transaction_depth := st.transaction_depth
  if transaction_depth ≤ 1 then
    let r := batch_execute conn st "COMMIT"
    match r.1 with
    | e@(.error (.DatabaseError .SerializationFailure _))
    | e@(.error (.DatabaseError .ReadOnlyTransaction _)) =>
        let r2 := batch_execute conn r.2 "ROLLBACK"
        let r3 := change_transaction_depth r2.2 (-1) r2.1
        match r3.1 with
        | .ok _ => (e, r3.2)
        | .error e2 => (.error e2, r3.2)
    | result => change_transaction_depth r.2 (-1) result
  else
    let r := batch_execute conn st
      ("RELEASE SAVEPOINT diesel_savepoint_" ++ toString (transaction_depth - 1))
    change_transaction_depth r.2 (-1) r.1

/-- Embeds `<AnsiTransactionManager as TransactionManager>::get_transaction_depth`,
whose body is `self.transaction_depth.get() as u32`: the `i32` value is
reinterpreted as an unsigned 32-bit integer. -/
def get_transaction_depth (st : AnsiTransactionManager) : Nat :=
  (st.transaction_depth % (2 ^ 32 : Int)).toNat

/-- The two error kinds for which a failed `COMMIT` triggers a
compensating `ROLLBACK` (the two arms of the `match` in
`commit_transaction`). -/
def commit_error_requires_rollback : Error → Bool
  | .DatabaseError .SerializationFailure _ => true
  | .DatabaseError .ReadOnlyTransaction _ => true
  | _ => false

/-- A backend that accepts every statement. -/
def connAllOk : Conn := fun _ _ => .ok ()

/-- A backend that rejects every statement. -/
def connAllFail : Conn := fun _ _ => .error (.DatabaseError .Unknown "backend failure")

/-- A backend on which `COMMIT` fails with a serialization failure and
every other statement (in particular `ROLLBACK`) succeeds. -/
def connCommitSerFail : Conn := fun _ sql =>
  if sql = "COMMIT" then .error (.DatabaseError .SerializationFailure "serialization failure")
  else .ok ()

/-- A backend on which `COMMIT` fails with a serialization failure and
every other statement (in particular `ROLLBACK`) fails with a
distinguishable error. -/
def connCommitSerFailRollbackFail : Conn := fun _ sql =>
  if sql = "COMMIT" then .error (.DatabaseError .SerializationFailure "serialization failure")
  else .error (.DatabaseError .Unknown "rollback failed")

/-- A backend on which `COMMIT` fails with an error that is neither a
serialization failure nor a read-only-transaction violation. -/
def connCommitOtherFail : Conn := fun _ sql =>
  if sql = "COMMIT" then .error (.DatabaseError .Unknown "other failure")
  else .ok ()

/-- The state after `N` consecutive `begin_transaction` calls. -/
def beginIter (conn : Conn) (st : AnsiTransactionManager) : Nat → AnsiTransactionManager
  | 0 => st
  | n + 1 => (begin_transaction conn (beginIter conn st n)).2

theorem begin_transaction_depth_of_ok (conn : Conn) (st : AnsiTransactionManager)
    (h : (begin_transaction conn st).1 = .ok ()) :
    (begin_transaction conn st).2.transaction_depth = st.transaction_depth + 1 := by
  by_cases hd : st.transaction_depth = 0
  · cases hq : conn st.issued "BEGIN" <;>
      simp_all [begin_transaction, batch_execute, change_transaction_depth, hd]
  · cases hq : conn st.issued ("SAVEPOINT diesel_savepoint_" ++ toString st.transaction_depth) <;>
      simp_all [begin_transaction, batch_execute, change_transaction_depth, hd]

theorem beginIter_depth (conn : Conn) (st : AnsiTransactionManager)
    (h0 : st.transaction_depth = 0) : ∀ N : Nat,
    (∀ n, n < N → (begin_transaction conn (beginIter conn st n)).1 = .ok ()) →
    (beginIter conn st N).transaction_depth = (N : Int) := by
  intro N
  induction N with
  | zero => intro _; simpa [beginIter] using h0
  | succ n ih =>
      intro hok
      have hd := ih (fun m hm => hok m (Nat.lt_succ_of_lt hm))
      have hs := begin_transaction_depth_of_ok conn (beginIter conn st n)
        (hok n (Nat.lt_succ_self n))
      show (begin_transaction conn (beginIter conn st n)).2.transaction_depth = _
      rw [hs, hd]
      push_cast
      ring

/-- Claim C2: at depth at most 1, when `COMMIT` fails with a
`SerializationFailure` or `ReadOnlyTransaction` error, the manager
issues a single compensating `ROLLBACK`; when that `ROLLBACK` succeeds,
the depth is decremented and the original commit error (not any
indication of the rollback's success) is returned to the caller. -/
theorem C2_theorem (conn : Conn) (st : AnsiTransactionManager) (e : Error)
    (hd : st.transaction_depth ≤ 1)
    (he : commit_error_requires_rollback e = true)
    (hc : conn st.issued "COMMIT" = .error e)
    (hr : conn (st.issued ++ ["COMMIT"]) "ROLLBACK" = .ok ()) :
    (commit_transaction conn st).1 = .error e ∧
    (commit_transaction conn st).2.transaction_depth = st.transaction_depth - 1 ∧
    (commit_transaction conn st).2.issued = st.issued ++ ["COMMIT", "ROLLBACK"] := by
  cases e with
  | DatabaseError kind info =>
      cases kind <;> simp [commit_error_requires_rollback] at he <;>
        (simp [commit_transaction, batch_execute, change_transaction_depth, hd, hc, hr]
         omega)
  | NotFound => simp [commit_error_requires_rollback] at he
  | AlreadyInTransaction => simp [commit_error_requires_rollback] at he
  | RollbackTransaction => simp [commit_error_requires_rollback] at he

/-- Concrete instance for the commit-fails-rollback-succeeds claim:
commit at depth 1 on a backend whose `COMMIT` fails with a
serialization failure and whose `ROLLBACK` succeeds. -/
theorem C2_witness :
    (1 : Int) ≤ 1 ∧
    ((commit_transaction connCommitSerFail ⟨1, []⟩).1 =
        .error (.DatabaseError .SerializationFailure "serialization failure") ∧
      (commit_transaction connCommitSerFail ⟨1, []⟩).2.transaction_depth = 1 - 1 ∧
      (commit_transaction connCommitSerFail ⟨1, []⟩).2.issued = [] ++ ["COMMIT", "ROLLBACK"]) :=
  ⟨by decide,
   C2_theorem connCommitSerFail ⟨1, []⟩
     (.DatabaseError .SerializationFailure "serialization failure")
     (by decide) (by decide) (by decide) (by decide)⟩

/-- Refutes claim C1 as stated: commit at depth 1 on a backend whose
`COMMIT` fails with a serialization failure and whose compensating
`ROLLBACK` also fails.  The depth is NOT decremented (it stays 1,
because `change_transaction_depth` mutates only on `is_ok()`), while
the returned error is indeed the rollback's error. -/
theorem C1_counterexample :
    (commit_transaction connCommitSerFailRollbackFail ⟨1, []⟩).2.transaction_depth = 1 ∧
    ¬ (commit_transaction connCommitSerFailRollbackFail ⟨1, []⟩).2.transaction_depth = 0 ∧
    (commit_transaction connCommitSerFailRollbackFail ⟨1, []⟩).1 =
      .error (.DatabaseError .Unknown "rollback failed") := by decide

/-- Claim C1 amended: at depth at most 1, when `COMMIT` fails with a
`SerializationFailure` or `ReadOnlyTransaction` error and the
compensating `ROLLBACK` also fails, the depth is left unchanged (not
decremented) and the rollback's error (not the original commit error)
is returned to the caller. -/
theorem C1_amended_theorem (conn : Conn) (st : AnsiTransactionManager) (e e2 : Error)
    (hd : st.transaction_depth ≤ 1)
    (he : commit_error_requires_rollback e = true)
    (hc : conn st.issued "COMMIT" = .error e)
    (hr : conn (st.issued ++ ["COMMIT"]) "ROLLBACK" = .error e2) :
    (commit_transaction conn st).1 = .error e2 ∧
    (commit_transaction conn st).2.transaction_depth = st.transaction_depth ∧
    (commit_transaction conn st).2.issued = st.issued ++ ["COMMIT", "ROLLBACK"] := by
  cases e with
  | DatabaseError kind info =>
      cases kind <;> simp [commit_error_requires_rollback] at he <;>
        simp [commit_transaction, batch_execute, change_transaction_depth, hd, hc, hr]
  | NotFound => simp [commit_error_requires_rollback] at he
  | AlreadyInTransaction => simp [commit_error_requires_rollback] at he
  | RollbackTransaction => simp [commit_error_requires_rollback] at he

/-- Concrete instance for the amended double-failure claim. -/
theorem C1_amended_witness :
    (1 : Int) ≤ 1 ∧
    ((commit_transaction connCommitSerFailRollbackFail ⟨1, []⟩).1 =
        .error (.DatabaseError .Unknown "rollback failed") ∧
      (commit_transaction connCommitSerFailRollbackFail ⟨1, []⟩).2.transaction_depth = 1 ∧
      (commit_transaction connCommitSerFailRollbackFail ⟨1, []⟩).2.issued =
        [] ++ ["COMMIT", "ROLLBACK"]) :=
  ⟨by decide,
   C1_amended_theorem connCommitSerFailRollbackFail ⟨1, []⟩
     (.DatabaseError .SerializationFailure "serialization failure")
     (.DatabaseError .Unknown "rollback failed")
     (by decide) (by decide) (by decide) (by decide)⟩

/-- Refutes claim C3 as stated: commit at depth 1 on a backend whose
`COMMIT` fails with an error other than serialization failure or
read-only violation.  The depth is NOT decremented (it stays 1); the
original error is returned and no `ROLLBACK` is issued. -/
theorem C3_counterexample :
    (commit_transaction connCommitOtherFail ⟨1, []⟩).2.transaction_depth = 1 ∧
    ¬ (commit_transaction connCommitOtherFail ⟨1, []⟩).2.transaction_depth = 0 ∧
    (commit_transaction connCommitOtherFail ⟨1, []⟩).1 =
      .error (.DatabaseError .Unknown "other failure") ∧
    (commit_transaction connCommitOtherFail ⟨1, []⟩).2.issued = ["COMMIT"] := by decide

/-- Claim C3 amended: at depth at most 1, when `COMMIT` fails with any
error other than `SerializationFailure` or `ReadOnlyTransaction`, the
depth is left unchanged (not decremented), the original error is
returned, and no compensating `ROLLBACK` statement is issued. -/
theorem C3_amended_theorem (conn : Conn) (st : AnsiTransactionManager) (e : Error)
    (hd : st.transaction_depth ≤ 1)
    (he : commit_error_requires_rollback e = false)
    (hc : conn st.issued "COMMIT" = .error e) :
    (commit_transaction conn st).1 = .error e ∧
    (commit_transaction conn st).2.transaction_depth = st.transaction_depth ∧
    (commit_transaction conn st).2.issued = st.issued ++ ["COMMIT"] := by
  cases e with
  | DatabaseError kind info =>
      cases kind <;> simp [commit_error_requires_rollback] at he <;>
        simp [commit_transaction, batch_execute, change_transaction_depth, hd, hc]
  | NotFound => simp [commit_transaction, batch_execute, change_transaction_depth, hd, hc]
  | AlreadyInTransaction =>
      simp [commit_transaction, batch_execute, change_transaction_depth, hd, hc]
  | RollbackTransaction =>
      simp [commit_transaction, batch_execute, change_transaction_depth, hd, hc]

/-- Concrete instance for the amended other-error commit claim. -/
theorem C3_amended_witness :
    (1 : Int) ≤ 1 ∧
    ((commit_transaction connCommitOtherFail ⟨1, []⟩).1 =
        .error (.DatabaseError .Unknown "other failure") ∧
      (commit_transaction connCommitOtherFail ⟨1, []⟩).2.transaction_depth = 1 ∧
      (commit_transaction connCommitOtherFail ⟨1, []⟩).2.issued = [] ++ ["COMMIT"]) :=
  ⟨by decide,
   C3_amended_theorem connCommitOtherFail ⟨1, []⟩
     (.DatabaseError .Unknown "other failure")
     (by decide) (by decide) (by decide)⟩

/-- Claim C4: for every operation and every starting state, the depth
is mutated only as a side effect of a successful statement-channel
call.  For `begin_transaction`, `begin_transaction_sql` and
`rollback_transaction`, an error result leaves the depth unchanged;
for `commit_transaction`, if every statement the call could issue is
refused by the backend, the depth is unchanged. -/
theorem C4_theorem (conn : Conn) (st : AnsiTransactionManager) (sql : String) :
    (∀ e : Error, (begin_transaction conn st).1 = .error e →
      (begin_transaction conn st).2.transaction_depth = st.transaction_depth) ∧
    (∀ e : Error, (begin_transaction_sql conn st sql).1 = .error e →
      (begin_transaction_sql conn st sql).2.transaction_depth = st.transaction_depth) ∧
    (∀ e : Error, (rollback_transaction conn st).1 = .error e →
      (rollback_transaction conn st).2.transaction_depth = st.transaction_depth) ∧
    (¬ conn st.issued "COMMIT" = .ok () →
      ¬ conn st.issued
          ("RELEASE SAVEPOINT diesel_savepoint_" ++ toString (st.transaction_depth - 1)) = .ok () →
      ¬ conn (st.issued ++ ["COMMIT"]) "ROLLBACK" = .ok () →
      (commit_transaction conn st).2.transaction_depth = st.transaction_depth) := by
  refine ⟨?_, ?_, ?_, ?_⟩
  · intro e h
    simp only [begin_transaction, batch_execute, change_transaction_depth] at h ⊢
    split at h <;> split <;> simp_all
  · intro e h
    by_cases hd : st.transaction_depth = 0
    · cases hq : conn st.issued sql <;>
        simp_all [begin_transaction_sql, batch_execute, change_transaction_depth, hd]
    · simp_all [begin_transaction_sql, batch_execute, change_transaction_depth, hd]
  · intro e h
    simp only [rollback_transaction, batch_execute, change_transaction_depth] at h ⊢
    split at h <;> split <;> simp_all
  · intro h1 h2 h3
    simp only [commit_transaction, batch_execute, change_transaction_depth]
    split
    · cases hq : conn st.issued "COMMIT" with
      | ok u => exact absurd (by cases u; exact hq) h1
      | error e =>
          cases hr : conn (st.issued ++ ["COMMIT"]) "ROLLBACK" with
          | ok u => exact absurd (by cases u; exact hr) h3
          | error e2 =>
              cases e with
              | DatabaseError kind info => cases kind <;> simp_all
              | NotFound => simp_all
              | AlreadyInTransaction => simp_all
              | RollbackTransaction => simp_all
    · cases hq : conn st.issued
        ("RELEASE SAVEPOINT diesel_savepoint_" ++ toString (st.transaction_depth - 1)) with
      | ok u => exact absurd (by cases u; exact hq) h2
      | error e => simp_all

/-- Concrete instance for the statement-failure-leaves-depth claim, on
a backend that rejects every statement, at depth 1 (and depth 0 for
the custom-SQL begin). -/
theorem C4_witness :
    (begin_transaction connAllFail ⟨1, []⟩).2.transaction_depth = 1 ∧
    (begin_transaction_sql connAllFail ⟨0, []⟩ "BEGIN READ ONLY").2.transaction_depth = 0 ∧
    (rollback_transaction connAllFail ⟨1, []⟩).2.transaction_depth = 1 ∧
    (commit_transaction connAllFail ⟨1, []⟩).2.transaction_depth = 1 :=
  ⟨(C4_theorem connAllFail ⟨1, []⟩ "BEGIN READ ONLY").1
      (.DatabaseError .Unknown "backend failure") rfl,
   (C4_theorem connAllFail ⟨0, []⟩ "BEGIN READ ONLY").2.1
      (.DatabaseError .Unknown "backend failure") rfl,
   (C4_theorem connAllFail ⟨1, []⟩ "BEGIN READ ONLY").2.2.1
      (.DatabaseError .Unknown "backend failure") rfl,
   (C4_theorem connAllFail ⟨1, []⟩ "BEGIN READ ONLY").2.2.2
      (by decide) (by decide) (by decide)⟩

/-- Claim C5: `begin_transaction` at depth D issues `BEGIN` when D = 0
and otherwise a savepoint statement whose name encodes D; on success
the depth becomes D + 1, on failure the depth stays D and the backend's
error is returned unchanged; after N successful begins from depth 0
the depth equals N. -/
theorem C5_theorem (conn : Conn) (st : AnsiTransactionManager) :
    (begin_transaction conn st).2.issued = st.issued ++
      [if st.transaction_depth = 0 then "BEGIN"
       else "SAVEPOINT diesel_savepoint_" ++ toString st.transaction_depth] ∧
    ((begin_transaction conn st).1 = .ok () →
      (begin_transaction conn st).2.transaction_depth = st.transaction_depth + 1) ∧
    (∀ e : Error,
      conn st.issued (if st.transaction_depth = 0 then "BEGIN"
          else "SAVEPOINT diesel_savepoint_" ++ toString st.transaction_depth) = .error e →
      (begin_transaction conn st).1 = .error e ∧
      (begin_transaction conn st).2.transaction_depth = st.transaction_depth) ∧
    (∀ N : Nat, st.transaction_depth = 0 →
      (∀ n, n < N → (begin_transaction conn (beginIter conn st n)).1 = .ok ()) →
      (beginIter conn st N).transaction_depth = (N : Int)) := by
  refine ⟨?_, begin_transaction_depth_of_ok conn st, ?_, ?_⟩
  · by_cases hd : st.transaction_depth = 0
    · cases hq : conn st.issued "BEGIN" <;>
        simp_all [begin_transaction, batch_execute, change_transaction_depth, hd]
    · cases hq : conn st.issued ("SAVEPOINT diesel_savepoint_" ++ toString st.transaction_depth) <;>
        simp_all [begin_transaction, batch_execute, change_transaction_depth, hd]
  · intro e he
    by_cases hd : st.transaction_depth = 0 <;>
      simp_all [begin_transaction, batch_execute, change_transaction_depth, hd]
  · intro N h0 hok
    exact beginIter_depth conn st h0 N hok

/-- Concrete instance for the begin claim: on an always-accepting
backend, three successful begins from depth 0 reach depth 3. -/
theorem C5_witness :
    ((begin_transaction connAllOk ⟨0, []⟩).1 = .ok () →
      (begin_transaction connAllOk ⟨0, []⟩).2.transaction_depth = 0 + 1) ∧
    (beginIter connAllOk ⟨0, []⟩ 3).transaction_depth = (3 : Int) :=
  ⟨(C5_theorem connAllOk ⟨0, []⟩).2.1,
   (C5_theorem connAllOk ⟨0, []⟩).2.2.2 3 (by decide) (by
      intro n hn
      interval_cases n <;> decide)⟩

/-- Claim C6: `rollback_transaction` at depth D issues `ROLLBACK` when
D = 1 and otherwise `ROLLBACK TO SAVEPOINT` with the name encoding
D - 1; the backend's answer is propagated unchanged; on success the
depth becomes D - 1, on failure it is unchanged. -/
theorem C6_theorem (conn : Conn) (st : AnsiTransactionManager) :
    (rollback_transaction conn st).2.issued = st.issued ++
      [if st.transaction_depth = 1 then "ROLLBACK"
       else "ROLLBACK TO SAVEPOINT diesel_savepoint_" ++ toString (st.transaction_depth - 1)] ∧
    (rollback_transaction conn st).1 =
      conn st.issued (if st.transaction_depth = 1 then "ROLLBACK"
        else "ROLLBACK TO SAVEPOINT diesel_savepoint_" ++ toString (st.transaction_depth - 1)) ∧
    ((rollback_transaction conn st).1 = .ok () →
      (rollback_transaction conn st).2.transaction_depth = st.transaction_depth - 1) ∧
    (∀ e : Error, (rollback_transaction conn st).1 = .error e →
      (rollback_transaction conn st).2.transaction_depth = st.transaction_depth) := by
  by_cases hd : st.transaction_depth = 1
  · cases hq : conn st.issued "ROLLBACK" <;>
      simp_all [rollback_transaction, batch_execute, change_transaction_depth, hd]
  · cases hq : conn st.issued
        ("ROLLBACK TO SAVEPOINT diesel_savepoint_" ++ toString (st.transaction_depth - 1)) <;>
      simp_all [rollback_transaction, batch_execute, change_transaction_depth, hd]
    omega

/-- Concrete instance for the rollback claim at depth 1 on an
always-accepting backend. -/
theorem C6_witness :
    ((rollback_transaction connAllOk ⟨1, []⟩).1 = .ok () →
      (rollback_transaction connAllOk ⟨1, []⟩).2.transaction_depth = 1 - 1) ∧
    (rollback_transaction connAllOk ⟨1, []⟩).2.issued = [] ++ ["ROLLBACK"] :=
  ⟨(C6_theorem connAllOk ⟨1, []⟩).2.2.1,
   by have h := (C6_theorem connAllOk ⟨1, []⟩).1; simpa using h⟩

/-- Claim C7: `begin_transaction_sql` at depth 0 executes the supplied
SQL as a batch statement and on success sets the depth to 1; at any
other depth it returns `AlreadyInTransaction`, issues no SQL, and
leaves the depth unchanged. -/
theorem C7_theorem (conn : Conn) (st : AnsiTransactionManager) (sql : String) :
    (st.transaction_depth = 0 →
      (begin_transaction_sql conn st sql).2.issued = st.issued ++ [sql] ∧
      (begin_transaction_sql conn st sql).1 = conn st.issued sql ∧
      ((begin_transaction_sql conn st sql).1 = .ok () →
        (begin_transaction_sql conn st sql).2.transaction_depth = 1)) ∧
    (¬ st.transaction_depth = 0 →
      (begin_transaction_sql conn st sql).1 = .error .AlreadyInTransaction ∧
      (begin_transaction_sql conn st sql).2.issued = st.issued ∧
      (begin_transaction_sql conn st sql).2.transaction_depth = st.transaction_depth) := by
  constructor
  · intro hd
    cases hq : conn st.issued sql <;>
      simp_all [begin_transaction_sql, batch_execute, change_transaction_depth, hd]
  · intro hd
    simp_all [begin_transaction_sql, batch_execute, change_transaction_depth, hd]

/-- Concrete instance for the custom-SQL begin claim, at depth 0 and at
depth 2. -/
theorem C7_witness :
    ((begin_transaction_sql connAllOk ⟨0, []⟩ "BEGIN READ ONLY").2.issued =
        [] ++ ["BEGIN READ ONLY"] ∧
      (begin_transaction_sql connAllOk ⟨0, []⟩ "BEGIN READ ONLY").1 =
        connAllOk [] "BEGIN READ ONLY" ∧
      ((begin_transaction_sql connAllOk ⟨0, []⟩ "BEGIN READ ONLY").1 = .ok () →
        (begin_transaction_sql connAllOk ⟨0, []⟩ "BEGIN READ ONLY").2.transaction_depth = 1)) ∧
    ((begin_transaction_sql connAllOk ⟨2, []⟩ "BEGIN READ ONLY").1 =
        .error .AlreadyInTransaction ∧
      (begin_transaction_sql connAllOk ⟨2, []⟩ "BEGIN READ ONLY").2.issued = [] ∧
      (begin_transaction_sql connAllOk ⟨2, []⟩ "BEGIN READ ONLY").2.transaction_depth = 2) :=
  ⟨(C7_theorem connAllOk ⟨0, []⟩ "BEGIN READ ONLY").1 (by decide),
   (C7_theorem connAllOk ⟨2, []⟩ "BEGIN READ ONLY").2 (by decide)⟩

/-- Claim C8: starting from depth 0 on an always-accepting backend, the
sequence begin; begin; commit; commit issues exactly BEGIN, then
SAVEPOINT diesel_savepoint_1, then RELEASE SAVEPOINT of the same name,
then COMMIT, with the depth passing through 0, 1, 2, 1, 0; the
savepoint name for nesting level 2 is the fixed name stem followed by
2 - 1 = 1. -/
theorem C8_theorem :
    (beginIter connAllOk ⟨0, []⟩ 0).transaction_depth = 0 ∧
    (beginIter connAllOk ⟨0, []⟩ 1).transaction_depth = 1 ∧
    (beginIter connAllOk ⟨0, []⟩ 2).transaction_depth = 2 ∧
    (commit_transaction connAllOk (beginIter connAllOk ⟨0, []⟩ 2)).2.transaction_depth = 1 ∧
    (commit_transaction connAllOk
        (commit_transaction connAllOk (beginIter connAllOk ⟨0, []⟩ 2)).2).2.transaction_depth
      = 0 ∧
    (commit_transaction connAllOk
        (commit_transaction connAllOk (beginIter connAllOk ⟨0, []⟩ 2)).2).2.issued =
      ["BEGIN", "SAVEPOINT diesel_savepoint_1", "RELEASE SAVEPOINT diesel_savepoint_1",
       "COMMIT"] ∧
    "SAVEPOINT diesel_savepoint_1" =
      "SAVEPOINT " ++ ("diesel_savepoint_" ++ toString ((2 : Int) - 1)) ∧
    "RELEASE SAVEPOINT diesel_savepoint_1" =
      "RELEASE SAVEPOINT " ++ ("diesel_savepoint_" ++ toString ((2 : Int) - 1)) := by
  decide

/-- Claim C9: a successful `rollback_transaction` at depth 0 drives the
signed counter to -1, and `get_transaction_depth` (the `i32`-to-`u32`
reinterpretation) then returns 2^32 - 1 = 4294967295. -/
theorem C9_theorem (conn : Conn) (st : AnsiTransactionManager)
    (hd : st.transaction_depth = 0)
    (hs : conn st.issued "ROLLBACK TO SAVEPOINT diesel_savepoint_-1" = .ok ()) :
    (rollback_transaction conn st).1 = .ok () ∧
    (rollback_transaction conn st).2.transaction_depth = -1 ∧
    get_transaction_depth (rollback_transaction conn st).2 = 4294967295 := by
  have hs' : conn st.issued
      ("ROLLBACK TO SAVEPOINT diesel_savepoint_" ++ toString (st.transaction_depth - 1)) =
      .ok () := by rw [hd]; exact hs
  have h1 : (rollback_transaction conn st).1 = .ok () ∧
      (rollback_transaction conn st).2.transaction_depth = -1 := by
    simp_all [rollback_transaction, batch_execute, change_transaction_depth, hd]
  refine ⟨h1.1, h1.2, ?_⟩
  rw [get_transaction_depth, h1.2]
  decide

/-- Concrete instance for the unsigned-wrap claim, on an
always-accepting backend. -/
theorem C9_witness :
    (0 : Int) = 0 ∧
    ((rollback_transaction connAllOk ⟨0, []⟩).1 = .ok () ∧
      (rollback_transaction connAllOk ⟨0, []⟩).2.transaction_depth = -1 ∧
      get_transaction_depth (rollback_transaction connAllOk ⟨0, []⟩).2 = 4294967295) :=
  ⟨rfl, C9_theorem connAllOk ⟨0, []⟩ rfl rfl⟩

/-- Claim C10: `rollback_transaction` at depth 0 does not issue the
plain `ROLLBACK` statement (that branch requires depth exactly 1); it
issues `ROLLBACK TO SAVEPOINT diesel_savepoint_-1`, the name embedding
the index 0 - 1 = -1. -/
theorem C10_theorem (conn : Conn) (st : AnsiTransactionManager)
    (hd : st.transaction_depth = 0) :
    (rollback_transaction conn st).2.issued =
      st.issued ++ ["ROLLBACK TO SAVEPOINT diesel_savepoint_-1"] ∧
    ¬ (rollback_transaction conn st).2.issued = st.issued ++ ["ROLLBACK"] := by
  have hstr : "ROLLBACK TO SAVEPOINT diesel_savepoint_" ++ toString (-1 : Int) =
      "ROLLBACK TO SAVEPOINT diesel_savepoint_-1" := by decide
  have h : (rollback_transaction conn st).2.issued =
      st.issued ++ ["ROLLBACK TO SAVEPOINT diesel_savepoint_-1"] := by
    simp only [rollback_transaction, batch_execute, change_transaction_depth, hd]
    split <;> simp_all [hstr]
  refine ⟨h, ?_⟩
  rw [h]
  simp

/-- Concrete instance for the depth-0 rollback statement claim. -/
theorem C10_witness :
    (0 : Int) = 0 ∧
    ((rollback_transaction connAllOk ⟨0, []⟩).2.issued =
        [] ++ ["ROLLBACK TO SAVEPOINT diesel_savepoint_-1"] ∧
      ¬ (rollback_transaction connAllOk ⟨0, []⟩).2.issued = [] ++ ["ROLLBACK"]) :=
  ⟨rfl, C10_theorem connAllOk ⟨0, []⟩ rfl⟩

end Diesel
